import Mathlib

/-!
Verification of the FALL lost-and-found listing service (src/main.py,
src/config.py, src/server.py) against its natural-language specification.

The service is a set of HTTP handlers performing CRUD operations on two
tables (Annonce listings and Device installation records) through an ORM.
We embed the persistent store as explicit state (a list of rows per table
plus a next-id counter, mirroring an autoincrement primary key), and each
handler of src/main.py as a pure function from the request data and the
current store to its response and the next store.  Timestamps are passed
in explicitly as a natural number clock value.  Fallible handlers return
an Except value whose error constructor carries the HTTP 404 detail
string, mirroring HTTPException / DoesNotExist propagation.

The models module (models.py) is imported by src/main.py but is not part
of the provided sources; its record schemas are modelled from the
specification where noted.
-/

/-- Modelled from the spec: the Listing (Annonce) row schema.  models.py is
not among the provided sources; per the spec the row has a store-assigned
integer id, a boolean-as-integer actif flag, a free-text statut tag,
created_at and updated_at timestamps, and free-form descriptive fields
(title, description). -/
structure Annonce where
  id : Nat
  actif : Bool
  statut : String
  title : String
  description : String
  created_at : Option Nat
  updated_at : Option Nat
deriving Repr, DecidableEq

/-- Modelled from the spec: the partial Listing input schema
(AnnonceIn_Pydantic) excludes server-assigned fields (id, timestamps);
every remaining field may be left unset.  An unset field is `none` and is
excluded from the applied update, mirroring model_dump with exclude_unset
set to true. -/
structure AnnonceIn where
  actif : Option Bool
  statut : Option String
  title : Option String
  description : Option String
deriving Repr, DecidableEq

/-- The empty input body: no field explicitly provided. -/
def AnnonceIn.empty : AnnonceIn :=
  { actif := none, statut := none, title := none, description := none }

/-- Modelled from the spec: the Device row schema — a store-assigned id
plus the client-supplied device_id (no uniqueness constraint). -/
structure Device where
  id : Nat
  device_id : String
deriving Repr, DecidableEq

/-- Modelled from the spec: the partial Device input schema. -/
structure DeviceIn where
  device_id : Option String
deriving Repr, DecidableEq

/-- The response body of the Status model in src/main.py: a single
message string. -/
structure Status where
  message : String
deriving Repr, DecidableEq

/-- Errors a handler can surface: an HTTP 404 with its detail string
(raised explicitly by delete_annonce, or propagated from a zero-row
single fetch). -/
inductive HError where
  | notFound (detail : String)
deriving Repr, DecidableEq

/-- The persistent store: both tables plus the autoincrement counters. -/
structure Store where
  annonces : List Annonce
  devices : List Device
  nextAnnonceId : Nat
  nextDeviceId : Nat
deriving Repr, DecidableEq

/-- The empty store (fresh database). -/
def Store.empty : Store :=
  { annonces := [], devices := [], nextAnnonceId := 1, nextDeviceId := 1 }

/-- GET /annonces — return every listing (Annonce.all()). -/
def get_annonces (s : Store) : List Annonce :=
  s.annonces

/-- GET /annonces/public — Annonce.filter(actif=1, statut="fall").all(). -/
def get_actives_annonces (s : Store) : List Annonce :=
  s.annonces.filter (fun a => a.actif == true && a.statut == "fall")

/-- GET /annonces/private — Annonce.filter(actif=0, statut="fall").all(). -/
def get_inactive_annonce (s : Store) : List Annonce :=
  s.annonces.filter (fun a => a.actif == false && a.statut == "fall")

/-- Modelled from the spec: schema defaults applied by Annonce.create to
fields absent from the input dump (exclude_unset).  Per the spec a fresh
listing is pending (actif = 0) with statut at its normal/open value
"fall"; descriptive fields default to empty; created_at and updated_at
are set by the store at creation time. -/
def AnnonceIn.toRow (inp : AnnonceIn) (id now : Nat) : Annonce :=
  { id := id
    actif := inp.actif.getD false
    statut := inp.statut.getD "fall"
    title := inp.title.getD ""
    description := inp.description.getD ""
    created_at := some now
    updated_at := some now }

/-- POST /annonce/ — Annonce.create(**annonce.model_dump(exclude_unset=True)),
returning the full created record. -/
def create_annonce (inp : AnnonceIn) (now : Nat) (s : Store) : Annonce × Store :=
  let obj := inp.toRow s.nextAnnonceId now
  (obj,
    { s with
      annonces := s.annonces ++ [obj]
      nextAnnonceId := s.nextAnnonceId + 1 })

/-- GET /annonce/{id} — Annonce.get(id=annonce_id); a zero-row result
raises DoesNotExist, mapped to a structured 404 response. -/
def get_annonce (annonce_id : Nat) (s : Store) : Except HError Annonce :=
  match s.annonces.find? (fun a => a.id == annonce_id) with
  | some a => Except.ok a
  | none => Except.error (HError.notFound "Object does not exist")

/-- The per-row effect of the queryset update in update_annonce: only the
explicitly provided input fields overwrite the row (exclude_unset). -/
def AnnonceIn.applyTo (inp : AnnonceIn) (a : Annonce) : Annonce :=
  { a with
    actif := inp.actif.getD a.actif
    statut := inp.statut.getD a.statut
    title := inp.title.getD a.title
    description := inp.description.getD a.description }

/-- PUT /annonce/{id} — Annonce.filter(id=annonce_id).update(**dump)
followed by the fetch-and-return step Annonce.get(id=annonce_id). -/
def update_annonce (annonce_id : Nat) (inp : AnnonceIn) (s : Store) :
    Except HError Annonce × Store :=
  let s2 :=
    { s with
      annonces := s.annonces.map (fun a =>
        if a.id == annonce_id then inp.applyTo a else a) }
  (get_annonce annonce_id s2, s2)

/-- GET /annonce/publier/{id} —
Annonce.filter(id=annonce_id).update(actif=1, updated_at=now). -/
def publish_annonce (annonce_id : Nat) (now : Nat) (s : Store) : Status × Store :=
  let s2 :=
    { s with
      annonces := s.annonces.map (fun a =>
        if a.id == annonce_id then
          { a with actif := true, updated_at := some now }
        else a) }
  ({ message := "L\x27annonce à bien été publiée" }, s2)

/-- GET /annonce/done/{id} —
Annonce.filter(id=annonce_id).update(statut="pupa", actif=0, updated_at=now). -/
def acchieve_annonce (annonce_id : Nat) (now : Nat) (s : Store) : Status × Store :=
  let s2 :=
    { s with
      annonces := s.annonces.map (fun a =>
        if a.id == annonce_id then
          { a with statut := "pupa", actif := false, updated_at := some now }
        else a) }
  ({ message := "Felicitation, objet bien rendu au proprietaire !" }, s2)

/-- DELETE /annonce/{id} — Annonce.filter(id=annonce_id).delete(); raises
404 when the deleted count is zero, else confirms with the id. -/
def delete_annonce (annonce_id : Nat) (s : Store) : Except HError Status × Store :=
  let deleted_count := (s.annonces.filter (fun a => a.id == annonce_id)).length
  if deleted_count = 0 then
    (Except.error (HError.notFound
      ("L\x27annonce " ++ toString annonce_id ++ " n\x27a pas été trouvée")), s)
  else
    ({ message := "L\x27annonce " ++ toString annonce_id ++ " a été supprimée" } |> Except.ok,
      { s with annonces := s.annonces.filter (fun a => a.id != annonce_id) })

/-- Modelled from the spec: schema default applied by Device.create to an
unset device_id (no validation of well-formedness). -/
def DeviceIn.toRow (inp : DeviceIn) (id : Nat) : Device :=
  { id := id, device_id := inp.device_id.getD "" }

/-- POST /installation/ — Device.create(**device.model_dump(exclude_unset=True)),
confirming with the stored device_id. -/
def get_device_info (inp : DeviceIn) (s : Store) : Status × Store :=
  let obj := inp.toRow s.nextDeviceId
  ({ message :=
      "Nous sommes heureux de vous compter parmis nous, utilisateur " ++ obj.device_id },
    { s with
      devices := s.devices ++ [obj]
      nextDeviceId := s.nextDeviceId + 1 })

/-- A sample stored listing used by the concrete witnesses below. -/
def sampleAnnonce : Annonce :=
  { id := 1, actif := false, statut := "fall", title := "Lost wallet"
    description := "", created_at := some 0, updated_at := some 0 }

/-- A sample one-row store used by the concrete witnesses below. -/
def sampleStore : Store :=
  { annonces := [sampleAnnonce], devices := [], nextAnnonceId := 2, nextDeviceId := 1 }

/-! ### List helper lemmas shared by the claim theorems -/

/-- A conditional per-id rewrite maps every non-matching list unchanged. -/
theorem map_ite_id_of_no_match (i : Nat) (f : Annonce → Annonce)
    (l : List Annonce) (h : ∀ a ∈ l, a.id ≠ i) :
    l.map (fun a => if a.id == i then f a else a) = l := by
  induction l with
  | nil => rfl
  | cons a t ih =>
    have ha : a.id ≠ i := h a (List.mem_cons_self a t)
    simp only [List.map_cons]
    rw [if_neg (by simpa using ha), ih (fun b hb => h b (List.mem_cons_of_mem a hb))]

/-- Finding by id after a per-id rewrite that preserves ids commutes with
the rewrite. -/
theorem find?_map_ite (i : Nat) (f : Annonce → Annonce)
    (hf : ∀ a, (f a).id = a.id) (l : List Annonce) :
    (l.map (fun a => if a.id == i then f a else a)).find? (fun a => a.id == i)
      = (l.find? (fun a => a.id == i)).map f := by
  induction l with
  | nil => rfl
  | cons a t ih =>
    by_cases ha : a.id = i
    · simp [ha, hf]
    · have hga : (if a.id == i then f a else a) = a :=
        if_neg (by simpa using ha)
      rw [List.map_cons, hga, List.find?_cons_of_neg _ (by simpa using ha),
        List.find?_cons_of_neg _ (by simpa using ha), ih]

/-- find? by id returns none exactly on lists with no matching row. -/
theorem find?_id_eq_none (i : Nat) (l : List Annonce) :
    l.find? (fun a => a.id == i) = none ↔ ∀ a ∈ l, a.id ≠ i := by
  rw [List.find?_eq_none]
  constructor
  · intro h a ha
    simpa using h a ha
  · intro h a ha
    simpa using h a ha

/-- Finding by id in a list from which that id was filtered out fails. -/
theorem find?_filter_ne (i : Nat) (l : List Annonce) :
    (l.filter (fun a => a.id != i)).find? (fun a => a.id == i) = none := by
  rw [find?_id_eq_none]
  intro a ha
  have := List.of_mem_filter ha
  simpa using this

/-- The by-id filter is empty exactly on lists with no matching row. -/
theorem filter_id_eq_nil (i : Nat) (l : List Annonce) :
    l.filter (fun a => a.id == i) = [] ↔ ∀ a ∈ l, a.id ≠ i := by
  constructor
  · intro h a ha hai
    have : a ∈ l.filter (fun a => a.id == i) :=
      List.mem_filter.2 ⟨ha, by simpa using hai⟩
    rw [h] at this
    exact absurd this (List.not_mem_nil a)
  · intro h
    rw [List.filter_eq_nil_iff]
    intro a ha
    simpa using h a ha

/-- Applying the empty input body to a row changes nothing. -/
theorem applyTo_empty (a : Annonce) : AnnonceIn.empty.applyTo a = a :=
  rfl

/-- Rewriting every row by the empty input body leaves the list unchanged. -/
theorem map_ite_applyTo_empty (i : Nat) (l : List Annonce) :
    l.map (fun a => if a.id == i then AnnonceIn.empty.applyTo a else a) = l := by
  simp [applyTo_empty]

/-- Unfolding equation for update_annonce. -/
theorem update_annonce_def (annonce_id : Nat) (inp : AnnonceIn) (s : Store) :
    update_annonce annonce_id inp s =
      (get_annonce annonce_id
        { s with annonces := s.annonces.map (fun a =>
            if a.id == annonce_id then inp.applyTo a else a) },
       { s with annonces := s.annonces.map (fun a =>
            if a.id == annonce_id then inp.applyTo a else a) }) :=
  rfl

/-- Unfolding equation for publish_annonce. -/
theorem publish_annonce_def (annonce_id now : Nat) (s : Store) :
    publish_annonce annonce_id now s =
      ({ message := "L\x27annonce à bien été publiée" },
       { s with annonces := s.annonces.map (fun a =>
            if a.id == annonce_id then
              { a with actif := true, updated_at := some now }
            else a) }) :=
  rfl

/-- Unfolding equation for acchieve_annonce. -/
theorem acchieve_annonce_def (annonce_id now : Nat) (s : Store) :
    acchieve_annonce annonce_id now s =
      ({ message := "Felicitation, objet bien rendu au proprietaire !" },
       { s with annonces := s.annonces.map (fun a =>
            if a.id == annonce_id then
              { a with statut := "pupa", actif := false, updated_at := some now }
            else a) }) :=
  rfl

/-- Claim C1: the Update handler applies only the explicitly-provided
input fields to the row matching id — unset fields and the
server-assigned id and timestamps are never touched by the update step —
it does not check that the id exists before issuing the update: on a
missing id the update step leaves the store unchanged and does not raise,
the NotFound error being the one surfaced by the subsequent
fetch-and-return step; and an update with an empty/no-field body succeeds
and returns the stored row with every field value unchanged. -/
theorem update_annonce_spec (annonce_id : Nat) (inp : AnnonceIn) (s : Store) :
    ((update_annonce annonce_id inp s).2.annonces =
        s.annonces.map (fun a => if a.id == annonce_id then inp.applyTo a else a)) ∧
    (∀ a : Annonce,
      (inp.applyTo a).id = a.id ∧
      (inp.applyTo a).created_at = a.created_at ∧
      (inp.applyTo a).updated_at = a.updated_at ∧
      (inp.actif = none → (inp.applyTo a).actif = a.actif) ∧
      (inp.statut = none → (inp.applyTo a).statut = a.statut) ∧
      (inp.title = none → (inp.applyTo a).title = a.title) ∧
      (inp.description = none → (inp.applyTo a).description = a.description) ∧
      (∀ v, inp.actif = some v → (inp.applyTo a).actif = v) ∧
      (∀ v, inp.statut = some v → (inp.applyTo a).statut = v) ∧
      (∀ v, inp.title = some v → (inp.applyTo a).title = v) ∧
      (∀ v, inp.description = some v → (inp.applyTo a).description = v)) ∧
    ((∀ a ∈ s.annonces, a.id ≠ annonce_id) →
      update_annonce annonce_id inp s =
        (Except.error (HError.notFound "Object does not exist"), s)) ∧
    ((update_annonce annonce_id AnnonceIn.empty s).2 = s) ∧
    (∀ a, get_annonce annonce_id s = Except.ok a →
      update_annonce annonce_id AnnonceIn.empty s = (Except.ok a, s)) := by
  refine ⟨rfl, ?_, ?_, ?_, ?_⟩
  · intro a
    refine ⟨rfl, rfl, rfl, ?_, ?_, ?_, ?_, ?_, ?_, ?_, ?_⟩ <;>
      first
        | (intro h; simp [AnnonceIn.applyTo, h])
        | (intro v h; simp [AnnonceIn.applyTo, h])
  · intro h
    have hm := map_ite_id_of_no_match annonce_id inp.applyTo s.annonces h
    rw [update_annonce_def, hm]
    show (get_annonce annonce_id s, s) = _
    unfold get_annonce
    rw [(find?_id_eq_none annonce_id s.annonces).mpr h]
  · rw [update_annonce_def, map_ite_applyTo_empty]
  · intro a ha
    rw [update_annonce_def, map_ite_applyTo_empty]
    show (get_annonce annonce_id s, s) = _
    rw [ha]

/-- Claim C1 witness: on the empty store, updating id 7 with the empty
body surfaces NotFound from the fetch step and leaves the store as it was. -/
theorem update_annonce_spec_witness :
    update_annonce 7 AnnonceIn.empty Store.empty =
      (Except.error (HError.notFound "Object does not exist"), Store.empty) :=
  (update_annonce_spec 7 AnnonceIn.empty Store.empty).2.2.1 (by simp [Store.empty])

/-- Claim C3: Publish sets actif and updated_at on every row matching the
id regardless of its current state, leaves every other row unchanged,
and returns only the fixed confirmation message (never the updated
record). -/
theorem publish_annonce_spec (annonce_id now : Nat) (s : Store) :
    (publish_annonce annonce_id now s).1 =
      { message := "L\x27annonce à bien été publiée" } ∧
    (∀ a ∈ s.annonces, a.id = annonce_id →
      { a with actif := true, updated_at := some now } ∈
        (publish_annonce annonce_id now s).2.annonces) ∧
    (∀ a ∈ s.annonces, a.id ≠ annonce_id →
      a ∈ (publish_annonce annonce_id now s).2.annonces) ∧
    (∀ b ∈ (publish_annonce annonce_id now s).2.annonces, b.id = annonce_id →
      b.actif = true ∧ b.updated_at = some now) := by
  refine ⟨rfl, ?_, ?_, ?_⟩
  · intro a ha hid
    show _ ∈ s.annonces.map (fun b =>
      if b.id == annonce_id then { b with actif := true, updated_at := some now } else b)
    exact List.mem_map.2 ⟨a, ha, by simp [hid]⟩
  · intro a ha hid
    show _ ∈ s.annonces.map (fun b =>
      if b.id == annonce_id then { b with actif := true, updated_at := some now } else b)
    exact List.mem_map.2 ⟨a, ha, by simp [hid]⟩
  · intro b hb hid
    have hb2 : b ∈ s.annonces.map (fun c =>
        if c.id == annonce_id then { c with actif := true, updated_at := some now } else c) := hb
    obtain ⟨a, _, hba⟩ := List.mem_map.1 hb2
    by_cases hc : a.id = annonce_id
    · rw [if_pos (by simpa using hc)] at hba
      subst hba
      exact ⟨rfl, rfl⟩
    · rw [if_neg (by simpa using hc)] at hba
      subst hba
      exact absurd hid hc

/-- Claim C3 witness: publishing the sample pending listing stores it
with actif set and the new timestamp. -/
theorem publish_annonce_spec_witness :
    { sampleAnnonce with actif := true, updated_at := some 5 } ∈
      (publish_annonce 1 5 sampleStore).2.annonces :=
  (publish_annonce_spec 1 5 sampleStore).2.1 sampleAnnonce
    (by simp [sampleStore]) (by simp [sampleAnnonce])

/-- Claim C10: on an id with no matching row, Publish and Mark-resolved
still return their fixed success messages — neither handler checks the
affected-row count, so no NotFound is raised — and the store is left
unchanged. -/
theorem publish_acchieve_missing_id (annonce_id now : Nat) (s : Store)
    (h : ∀ a ∈ s.annonces, a.id ≠ annonce_id) :
    publish_annonce annonce_id now s =
      ({ message := "L\x27annonce à bien été publiée" }, s) ∧
    acchieve_annonce annonce_id now s =
      ({ message := "Felicitation, objet bien rendu au proprietaire !" }, s) := by
  constructor
  · have hm := map_ite_id_of_no_match annonce_id
      (fun a => { a with actif := true, updated_at := some now }) s.annonces h
    rw [publish_annonce_def, hm]
  · have hm := map_ite_id_of_no_match annonce_id
      (fun a => { a with statut := "pupa", actif := false, updated_at := some now })
      s.annonces h
    rw [acchieve_annonce_def, hm]

/-- Claim C10 witness: publishing id 3 on the empty store returns the
fixed success message and the empty store unchanged. -/
theorem publish_acchieve_missing_id_witness :
    publish_annonce 3 5 Store.empty =
      ({ message := "L\x27annonce à bien été publiée" }, Store.empty) :=
  (publish_acchieve_missing_id 3 5 Store.empty (by simp [Store.empty])).1

/-- find? by id succeeds on a list containing a matching row, and the
found row matches the id. -/
theorem find?_id_some_of_mem (i : Nat) (l : List Annonce)
    (h : ∃ a ∈ l, a.id = i) :
    ∃ a0, l.find? (fun a => a.id == i) = some a0 ∧ a0.id = i := by
  have hsome : (l.find? (fun a => a.id == i)).isSome := by
    rw [List.find?_isSome]
    obtain ⟨a, ha, hai⟩ := h
    exact ⟨a, ha, by simpa using hai⟩
  obtain ⟨a0, ha0⟩ := Option.isSome_iff_exists.mp hsome
  exact ⟨a0, ha0, by simpa using List.find?_some ha0⟩

/-- Unfolding equation for delete_annonce when some row matches the id. -/
theorem delete_annonce_def_found (annonce_id : Nat) (s : Store)
    (h : (s.annonces.filter (fun a => a.id == annonce_id)).length ≠ 0) :
    delete_annonce annonce_id s =
      (Except.ok { message := "L\x27annonce " ++ toString annonce_id ++ " a été supprimée" },
       { s with annonces := s.annonces.filter (fun a => a.id != annonce_id) }) := by
  unfold delete_annonce
  rw [if_neg h]

/-- Unfolding equation for delete_annonce when no row matches the id. -/
theorem delete_annonce_def_missing (annonce_id : Nat) (s : Store)
    (h : ∀ a ∈ s.annonces, a.id ≠ annonce_id) :
    delete_annonce annonce_id s =
      (Except.error (HError.notFound
        ("L\x27annonce " ++ toString annonce_id ++ " n\x27a pas été trouvée")), s) := by
  unfold delete_annonce
  rw [(filter_id_eq_nil annonce_id s.annonces).mpr h]
  rfl

/-- Claim C2: Delete fails with an explicit NotFound exactly when zero
rows matched the id (the affected-row count it checks); when a matching
row exists it returns a confirmation message including the id, the
matching row is removed — a subsequent Get of the same id fails with
NotFound — and on a missing id the store is left unchanged. -/
theorem delete_annonce_spec (annonce_id : Nat) (s : Store) :
    ((delete_annonce annonce_id s).1 =
        Except.error (HError.notFound
          ("L\x27annonce " ++ toString annonce_id ++ " n\x27a pas été trouvée"))
      ↔ ∀ a ∈ s.annonces, a.id ≠ annonce_id) ∧
    ((∃ a ∈ s.annonces, a.id = annonce_id) →
      (delete_annonce annonce_id s).1 =
        Except.ok { message := "L\x27annonce " ++ toString annonce_id ++ " a été supprimée" }) ∧
    get_annonce annonce_id (delete_annonce annonce_id s).2 =
      Except.error (HError.notFound "Object does not exist") ∧
    ((∀ a ∈ s.annonces, a.id ≠ annonce_id) → (delete_annonce annonce_id s).2 = s) := by
  by_cases hex : ∀ a ∈ s.annonces, a.id ≠ annonce_id
  · have hd := delete_annonce_def_missing annonce_id s hex
    refine ⟨⟨fun _ => hex, fun _ => by rw [hd]⟩, ?_, ?_, fun _ => by rw [hd]⟩
    · rintro ⟨a, ha, hai⟩
      exact absurd hai (hex a ha)
    · rw [hd]
      unfold get_annonce
      rw [(find?_id_eq_none annonce_id s.annonces).mpr hex]
  · push_neg at hex
    have hlen : (s.annonces.filter (fun a => a.id == annonce_id)).length ≠ 0 := by
      intro hc
      obtain ⟨a, ha, hai⟩ := hex
      exact absurd hai
        (((filter_id_eq_nil annonce_id s.annonces).mp (List.length_eq_zero.mp hc)) a ha)
    have hd := delete_annonce_def_found annonce_id s hlen
    refine ⟨⟨?_, ?_⟩, fun _ => by rw [hd], ?_, ?_⟩
    · intro hc
      rw [hd] at hc
      exact absurd hc (by simp)
    · intro hall
      obtain ⟨a, ha, hai⟩ := hex
      exact absurd hai (hall a ha)
    · rw [hd]
      unfold get_annonce
      rw [find?_filter_ne]
    · intro hall
      obtain ⟨a, ha, hai⟩ := hex
      exact absurd hai (hall a ha)

/-- Claim C2 witness: deleting the sample listing by its id returns the
confirmation message including the id. -/
theorem delete_annonce_spec_witness :
    (delete_annonce 1 sampleStore).1 =
      Except.ok { message := "L\x27annonce " ++ toString (1 : Nat) ++ " a été supprimée" } :=
  (delete_annonce_spec 1 sampleStore).2.1
    ⟨sampleAnnonce, by simp [sampleStore], by simp [sampleAnnonce]⟩

/-- Claim C4: Mark-resolved sets statut, actif and updated_at on every
row matching the id regardless of its current state, leaves every other
row unchanged, returns only the fixed confirmation message, and a fetch
after Mark-resolved on an existing id shows statut "pupa" and actif 0. -/
theorem acchieve_annonce_spec (annonce_id now : Nat) (s : Store) :
    (acchieve_annonce annonce_id now s).1 =
      { message := "Felicitation, objet bien rendu au proprietaire !" } ∧
    (∀ a ∈ s.annonces, a.id = annonce_id →
      { a with statut := "pupa", actif := false, updated_at := some now } ∈
        (acchieve_annonce annonce_id now s).2.annonces) ∧
    (∀ a ∈ s.annonces, a.id ≠ annonce_id →
      a ∈ (acchieve_annonce annonce_id now s).2.annonces) ∧
    ((∃ a ∈ s.annonces, a.id = annonce_id) →
      ∃ b, get_annonce annonce_id (acchieve_annonce annonce_id now s).2 = Except.ok b ∧
        b.statut = "pupa" ∧ b.actif = false ∧ b.updated_at = some now) := by
  refine ⟨rfl, ?_, ?_, ?_⟩
  · intro a ha hid
    show _ ∈ s.annonces.map (fun b =>
      if b.id == annonce_id then
        { b with statut := "pupa", actif := false, updated_at := some now }
      else b)
    exact List.mem_map.2 ⟨a, ha, by simp [hid]⟩
  · intro a ha hid
    show _ ∈ s.annonces.map (fun b =>
      if b.id == annonce_id then
        { b with statut := "pupa", actif := false, updated_at := some now }
      else b)
    exact List.mem_map.2 ⟨a, ha, by simp [hid]⟩
  · intro hex
    obtain ⟨a0, ha0, _⟩ := find?_id_some_of_mem annonce_id s.annonces hex
    refine ⟨{ a0 with statut := "pupa", actif := false, updated_at := some now },
      ?_, rfl, rfl, rfl⟩
    unfold get_annonce
    rw [show (acchieve_annonce annonce_id now s).2.annonces =
        s.annonces.map (fun a =>
          if a.id == annonce_id then
            { a with statut := "pupa", actif := false, updated_at := some now }
          else a) from rfl,
      find?_map_ite annonce_id
        (fun a => { a with statut := "pupa", actif := false, updated_at := some now })
        (fun a => rfl), ha0]
    rfl

/-- Claim C4 witness: after marking the sample listing resolved, fetching
it shows statut "pupa" and actif 0. -/
theorem acchieve_annonce_spec_witness :
    ∃ b, get_annonce 1 (acchieve_annonce 1 9 sampleStore).2 = Except.ok b ∧
      b.statut = "pupa" ∧ b.actif = false ∧ b.updated_at = some 9 :=
  (acchieve_annonce_spec 1 9 sampleStore).2.2.2
    ⟨sampleAnnonce, by simp [sampleStore], by simp [sampleAnnonce]⟩

/-- Every row matching the id in the store produced by the publish
queryset update has actif set. -/
theorem mem_publish_map_actif (i t : Nat) (l : List Annonce) :
    ∀ b ∈ l.map (fun a =>
        if a.id == i then { a with actif := true, updated_at := some t } else a),
      b.id = i → b.actif = true := by
  intro b hb hid
  obtain ⟨a, _, hba⟩ := List.mem_map.1 hb
  by_cases hc : a.id = i
  · rw [if_pos (by simpa using hc)] at hba
    subst hba
    rfl
  · rw [if_neg (by simpa using hc)] at hba
    subst hba
    exact absurd hid hc

/-- On a list whose id-matching rows already have actif set, the publish
queryset update changes only updated_at. -/
theorem map_publish_twice (i t : Nat) (l : List Annonce)
    (hl : ∀ a ∈ l, a.id = i → a.actif = true) :
    l.map (fun a =>
        if a.id == i then { a with actif := true, updated_at := some t } else a)
      = l.map (fun a =>
        if a.id == i then { a with updated_at := some t } else a) := by
  induction l with
  | nil => rfl
  | cons a tl ih =>
    have ihtl := ih (fun b hb => hl b (List.mem_cons_of_mem a hb))
    by_cases hc : a.id = i
    · have ha : a.actif = true := hl a (List.mem_cons_self a tl) hc
      simp only [List.map_cons, if_pos (show (a.id == i) = true by simpa using hc), ihtl]
      rw [ha]
    · simp only [List.map_cons, if_neg (show ¬ (a.id == i) = true by simpa using hc), ihtl]

/-- Claim C5: Publish is idempotent — after Publish on an existing id a
fetch shows actif set, and a second Publish on the same id changes
nothing beyond updated_at (on the already-published store its queryset
update coincides with one writing only updated_at). -/
theorem publish_idempotent (annonce_id t1 t2 : Nat) (s : Store)
    (h : ∃ a ∈ s.annonces, a.id = annonce_id) :
    (∃ b, get_annonce annonce_id (publish_annonce annonce_id t1 s).2 = Except.ok b ∧
      b.actif = true) ∧
    (publish_annonce annonce_id t2 (publish_annonce annonce_id t1 s).2).2.annonces =
      (publish_annonce annonce_id t1 s).2.annonces.map (fun a =>
        if a.id == annonce_id then { a with updated_at := some t2 } else a) := by
  constructor
  · have hmem : ∃ b ∈ (publish_annonce annonce_id t1 s).2.annonces, b.id = annonce_id := by
      obtain ⟨a, ha, hai⟩ := h
      refine ⟨{ a with actif := true, updated_at := some t1 }, ?_, hai⟩
      show _ ∈ s.annonces.map (fun b =>
        if b.id == annonce_id then { b with actif := true, updated_at := some t1 } else b)
      exact List.mem_map.2 ⟨a, ha, by simp [hai]⟩
    obtain ⟨b0, hb0, hb0id⟩ :=
      find?_id_some_of_mem annonce_id (publish_annonce annonce_id t1 s).2.annonces hmem
    refine ⟨b0, ?_, ?_⟩
    · unfold get_annonce
      rw [hb0]
    · exact mem_publish_map_actif annonce_id t1 s.annonces b0
        (List.mem_of_find?_eq_some hb0) hb0id
  · exact map_publish_twice annonce_id t2 _
      (fun b hb hid => mem_publish_map_actif annonce_id t1 s.annonces b hb hid)

/-- Claim C5 witness: after publishing the sample listing, fetching it
shows it active. -/
theorem publish_idempotent_witness :
    ∃ b, get_annonce 1 (publish_annonce 1 4 sampleStore).2 = Except.ok b ∧
      b.actif = true :=
  (publish_idempotent 1 4 6 sampleStore
    ⟨sampleAnnonce, by simp [sampleStore], by simp [sampleAnnonce]⟩).1

/-- Claim C6: the public listing query returns exactly the rows with
actif = 1 and statut = "fall", and the private listing query exactly the
rows with actif = 0 and statut = "fall" — both predicates exact-match. -/
theorem listing_filters_exact (s : Store) (a : Annonce) :
    (a ∈ get_actives_annonces s ↔ a ∈ s.annonces ∧ a.actif = true ∧ a.statut = "fall") ∧
    (a ∈ get_inactive_annonce s ↔ a ∈ s.annonces ∧ a.actif = false ∧ a.statut = "fall") := by
  constructor
  · simp [get_actives_annonces, List.mem_filter, and_assoc]
  · simp [get_inactive_annonce, List.mem_filter, and_assoc]

/-- Claim C6 witness: the sample pending listing is in the private query
result and carries actif = 0 and statut = "fall". -/
theorem listing_filters_exact_witness :
    sampleAnnonce ∈ get_inactive_annonce sampleStore :=
  (listing_filters_exact sampleStore sampleAnnonce).2.mpr
    ⟨by simp [sampleStore], rfl, rfl⟩

/-- Claim C7: the public and private query results are disjoint, and
their union is exactly the set of stored listings with statut "fall". -/
theorem public_private_partition (s : Store) (a : Annonce) :
    ¬ (a ∈ get_actives_annonces s ∧ a ∈ get_inactive_annonce s) ∧
    ((a ∈ get_actives_annonces s ∨ a ∈ get_inactive_annonce s) ↔
      a ∈ s.annonces ∧ a.statut = "fall") := by
  have h1 : a ∈ get_actives_annonces s ↔
      a ∈ s.annonces ∧ a.actif = true ∧ a.statut = "fall" := by
    simp [get_actives_annonces, List.mem_filter, and_assoc]
  have h2 : a ∈ get_inactive_annonce s ↔
      a ∈ s.annonces ∧ a.actif = false ∧ a.statut = "fall" := by
    simp [get_inactive_annonce, List.mem_filter, and_assoc]
  constructor
  · rintro ⟨ha1, ha2⟩
    have e1 := (h1.1 ha1).2.1
    have e2 := (h2.1 ha2).2.1
    rw [e1] at e2
    exact Bool.noConfusion e2
  · rw [h1, h2]
    constructor
    · rintro (⟨hm, _, hs⟩ | ⟨hm, _, hs⟩) <;> exact ⟨hm, hs⟩
    · rintro ⟨hm, hs⟩
      cases hb : a.actif with
      | false => exact Or.inr ⟨hm, rfl, hs⟩
      | true => exact Or.inl ⟨hm, rfl, hs⟩

/-- Claim C7 witness: the sample listing with statut "fall" appears in
exactly one of the two query results (here the private one). -/
theorem public_private_partition_witness :
    sampleAnnonce ∈ get_actives_annonces sampleStore ∨
      sampleAnnonce ∈ get_inactive_annonce sampleStore :=
  (public_private_partition sampleStore sampleAnnonce).2.mpr
    ⟨by simp [sampleStore], rfl⟩

/-- Claim C8: Create persists a new row whose explicitly-provided fields
come from the input and whose unset fields take the schema defaults
(actif 0, statut "fall"), assigns the next id, sets both timestamps, and
returns the full record; fetching the store by the returned id (fresh in
a well-formed store) yields exactly that record. -/
theorem create_annonce_spec (inp : AnnonceIn) (now : Nat) (s : Store) :
    (create_annonce inp now s).1.id = s.nextAnnonceId ∧
    (create_annonce inp now s).1.created_at = some now ∧
    (create_annonce inp now s).1.updated_at = some now ∧
    (create_annonce inp now s).2.annonces = s.annonces ++ [(create_annonce inp now s).1] ∧
    (inp.actif = none → (create_annonce inp now s).1.actif = false) ∧
    (inp.statut = none → (create_annonce inp now s).1.statut = "fall") ∧
    (∀ v, inp.actif = some v → (create_annonce inp now s).1.actif = v) ∧
    (∀ v, inp.statut = some v → (create_annonce inp now s).1.statut = v) ∧
    (∀ v, inp.title = some v → (create_annonce inp now s).1.title = v) ∧
    (∀ v, inp.description = some v → (create_annonce inp now s).1.description = v) ∧
    ((∀ a ∈ s.annonces, a.id ≠ s.nextAnnonceId) →
      get_annonce s.nextAnnonceId (create_annonce inp now s).2 =
        Except.ok (create_annonce inp now s).1) := by
  refine ⟨rfl, rfl, rfl, rfl, ?_, ?_, ?_, ?_, ?_, ?_, ?_⟩
  · intro h
    simp [create_annonce, AnnonceIn.toRow, h]
  · intro h
    simp [create_annonce, AnnonceIn.toRow, h]
  · intro v h
    simp [create_annonce, AnnonceIn.toRow, h]
  · intro v h
    simp [create_annonce, AnnonceIn.toRow, h]
  · intro v h
    simp [create_annonce, AnnonceIn.toRow, h]
  · intro v h
    simp [create_annonce, AnnonceIn.toRow, h]
  · intro h
    unfold get_annonce
    rw [show (create_annonce inp now s).2.annonces =
        s.annonces ++ [inp.toRow s.nextAnnonceId now] from rfl,
      List.find?_append, (find?_id_eq_none s.nextAnnonceId s.annonces).mpr h,
      Option.none_or,
      List.find?_cons_of_pos _ (by simp [AnnonceIn.toRow])]
    rfl

/-- Claim C8 witness: creating a listing with only a title on the empty
store, then fetching it by the returned id, yields the created record —
whose actif and statut sit at the schema defaults and whose created_at is
set. -/
theorem create_annonce_spec_witness :
    get_annonce Store.empty.nextAnnonceId
        (create_annonce
          { actif := none, statut := none, title := some "Lost wallet", description := none }
          3 Store.empty).2 =
      Except.ok (create_annonce
          { actif := none, statut := none, title := some "Lost wallet", description := none }
          3 Store.empty).1 :=
  (create_annonce_spec
      { actif := none, statut := none, title := some "Lost wallet", description := none }
      3 Store.empty).2.2.2.2.2.2.2.2.2.2 (by simp [Store.empty])

/-- Claim C9: Register-installation persists a new Device row
unconditionally — no dedup or validation, the devices table always grows
by exactly the new row — and returns a confirmation message embedding the
stored row's identifier; two registrations carrying the same device_id
both succeed and produce two distinct stored rows. -/
theorem get_device_info_spec (inp : DeviceIn) (s : Store) :
    (get_device_info inp s).1 =
      { message := "Nous sommes heureux de vous compter parmis nous, utilisateur "
          ++ (inp.toRow s.nextDeviceId).device_id } ∧
    (get_device_info inp s).2.devices = s.devices ++ [inp.toRow s.nextDeviceId] ∧
    (get_device_info inp s).2.nextDeviceId = s.nextDeviceId + 1 ∧
    (get_device_info inp s).2.annonces = s.annonces ∧
    (∀ d : String,
      ∃ r1 r2,
        r1 ∈ (get_device_info { device_id := some d }
                (get_device_info { device_id := some d } s).2).2.devices ∧
        r2 ∈ (get_device_info { device_id := some d }
                (get_device_info { device_id := some d } s).2).2.devices ∧
        r1 ≠ r2 ∧ r1.device_id = d ∧ r2.device_id = d) := by
  refine ⟨rfl, rfl, rfl, rfl, ?_⟩
  intro d
  refine ⟨{ id := s.nextDeviceId, device_id := d },
    { id := s.nextDeviceId + 1, device_id := d }, ?_, ?_, ?_, rfl, rfl⟩
  · rw [show (get_device_info { device_id := some d }
        (get_device_info { device_id := some d } s).2).2.devices =
          s.devices ++ [{ id := s.nextDeviceId, device_id := d }]
            ++ [{ id := s.nextDeviceId + 1, device_id := d }] from rfl]
    simp
  · rw [show (get_device_info { device_id := some d }
        (get_device_info { device_id := some d } s).2).2.devices =
          s.devices ++ [{ id := s.nextDeviceId, device_id := d }]
            ++ [{ id := s.nextDeviceId + 1, device_id := d }] from rfl]
    simp
  · intro hc
    have : s.nextDeviceId = s.nextDeviceId + 1 := congrArg Device.id hc
    omega

/-- Claim C9 witness: registering the same device identifier twice on the
empty store yields two distinct stored rows carrying that identifier. -/
theorem get_device_info_spec_witness :
    ∃ r1 r2,
      r1 ∈ (get_device_info { device_id := some "abc" }
              (get_device_info { device_id := some "abc" } Store.empty).2).2.devices ∧
      r2 ∈ (get_device_info { device_id := some "abc" }
              (get_device_info { device_id := some "abc" } Store.empty).2).2.devices ∧
      r1 ≠ r2 ∧ r1.device_id = "abc" ∧ r2.device_id = "abc" :=
  (get_device_info_spec { device_id := some "abc" } Store.empty).2.2.2.2 "abc"
